import Mathlib

/-!
Verification of the vkbootstrap X11 program (src/main_x11.c) against its
natural-language specification.  The C program is shallowly embedded: each
fallible external call (xcb, Vulkan) is represented by an environment field
holding the outcome the external system would produce, and each C function
becomes a total Lean function over that environment.  Machine integers that
matter here (image counts, extents, atoms, window ids) are modelled as Nat;
none of the modelled arithmetic can overflow 32 bits on the inputs the
program uses.
-/

/-- Vulkan result codes (the subset this program distinguishes).  In the C
source VK_SUCCESS is 0 and every other code is nonzero, so a C truthiness
test `if (result)` corresponds to `result ≠ VkResult.success`. -/
inductive VkResult where
  | success
  | incomplete
  | errorOutOfHostMemory
  | errorOutOfDeviceMemory
  | errorInitializationFailed
  | errorDeviceLost
  | errorSurfaceLost
deriving DecidableEq

/-- Vulkan presentation modes (the ones the program inspects, plus the
FIFO-relaxed mode so that lists can contain modes the loop ignores). -/
inductive VkPresentModeKHR where
  | immediate
  | mailbox
  | fifo
  | fifoRelaxed
deriving DecidableEq

/-- The present-mode scan of create_swapchain, lines 563-571 of main_x11.c:

    for (i = 0; i < presentModeCount; i++) \x7b
        if (presentModes[i] == VK_PRESENT_MODE_MAILBOX_KHR) \x7b
            SwapchainCreateInfo.presentMode = VK_PRESENT_MODE_MAILBOX_KHR;
            break;
        \x7d
        if (presentModes[i] == VK_PRESENT_MODE_IMMEDIATE_KHR) \x7b
            SwapchainCreateInfo.presentMode = VK_PRESENT_MODE_IMMEDIATE_KHR;
        \x7d
    \x7d

The second argument is the current value of the presentMode field (FIFO in
the initial descriptor).  MAILBOX sets the field and breaks; IMMEDIATE sets
the field and keeps scanning. -/
def select_present_mode : List VkPresentModeKHR → VkPresentModeKHR → VkPresentModeKHR
  | [], mode => mode
  | m :: rest, mode =>
    if m = VkPresentModeKHR.mailbox then VkPresentModeKHR.mailbox
    else if m = VkPresentModeKHR.immediate then
      select_present_mode rest VkPresentModeKHR.immediate
    else select_present_mode rest mode

/-- The image-count clamp of create_swapchain, lines 541-546 of main_x11.c:

    if (SwapchainCreateInfo.minImageCount < SurfaceCapabilities.minImageCount) \x7b
        SwapchainCreateInfo.minImageCount = SurfaceCapabilities.minImageCount;
    \x7d else if (SwapchainCreateInfo.minImageCount >
               SurfaceCapabilities.maxImageCount) \x7b
        SwapchainCreateInfo.minImageCount = SurfaceCapabilities.maxImageCount;
    \x7d

`requested` is the descriptor field before the clamp (always 2 in this
program).  Note there is no special case for capMax = 0, the Vulkan
sentinel meaning "no maximum". -/
def negotiate_image_count (requested capMin capMax : Nat) : Nat :=
  if requested < capMin then capMin
  else if requested > capMax then capMax
  else requested

/-- The game_window_t structure of main_x11.c (lines 18-26), minus the xcb
connection pointer (an opaque external resource carried alongside, never
inspected by the modelled logic) and the struct padding.  `is_closed` is a
C int used as a boolean; `wm_delete_window` is the close-protocol atom. -/
structure GameWindow where
  wm_delete_window : Nat
  window_id : Nat
  is_closed : Bool
  width : Nat
  height : Nat
deriving DecidableEq

/-- The xcb events the pump distinguishes after masking the send-event bit:
client messages (with their first 32-bit data word), configure (structural)
notifications (with the reported width and height), and everything else. -/
inductive XcbEvent where
  | clientMessage (data0 : Nat)
  | configureNotify (width height : Nat)
  | other
deriving DecidableEq

/-- One iteration of the event loop body in window_process_events
(main_x11.c lines 98-118): a client message whose first data word equals
the registered WM_DELETE_WINDOW atom sets is_closed; a configure
notification whose size differs from the stored one updates the stored
width and height; all other events are ignored. -/
def window_handle_event (w : GameWindow) (e : XcbEvent) : GameWindow :=
  match e with
  | XcbEvent.clientMessage data0 =>
      if data0 = w.wm_delete_window then { w with is_closed := true } else w
  | XcbEvent.configureNotify ew eh =>
      if ew ≠ w.width ∨ eh ≠ w.height then { w with width := ew, height := eh }
      else w
  | XcbEvent.other => w

/-- window_process_events (main_x11.c lines 92-120): drain the queued
events in arrival order.  The queue contents at call time are the list
argument. -/
def window_process_events (w : GameWindow) (events : List XcbEvent) : GameWindow :=
  events.foldl window_handle_event w

/-- window_is_exists (main_x11.c lines 125-128): `return window->is_closed == 0;`. -/
def window_is_exists (w : GameWindow) : Bool :=
  !w.is_closed

/-- Outcomes of the external calls window_create makes: whether malloc
returns non-NULL, whether the asynchronous xcb_create_window request
succeeds on the server (the C code never reads a reply or error for it),
and the atom and window id the server hands out. -/
structure X11Env where
  mallocOk : Bool
  createWindowOk : Bool
  deleteAtom : Nat
  newWindowId : Nat
deriving DecidableEq

/-- window_create (main_x11.c lines 156-196).  The function returns NULL
exactly when malloc fails; otherwise it fills the struct (is_closed = 0,
width = 0, height = 0 - NOT the requested size), issues the window
creation, title and protocol requests, and returns the struct.  The
outcome of the asynchronous creation request (env.createWindowOk) is
never consulted.  caption, width and height are sent to the server but do
not affect the returned value. -/
def window_create (env : X11Env) (caption : String) (width height : Nat) :
    Option GameWindow :=
  if env.mallocOk then
    some { wm_delete_window := env.deleteAtom
           window_id := env.newWindowId
           is_closed := false
           width := 0
           height := 0 }
  else none

/-- An opaque Vulkan physical-device handle. -/
structure VkPhysicalDevice where
  handle : Nat
deriving DecidableEq

/-- One entry of pQueueCreateInfos in create_device.  The C queue priority
is the float literal 1.0f; it is modelled as the rational 1 (the literal is
exact in binary floating point, so no rounding is involved). -/
structure VkDeviceQueueCreateInfo where
  queueFamilyIndex : Nat
  queueCount : Nat
  queuePriorities : List Rat
deriving DecidableEq

/-- The parts of VkDeviceCreateInfo the program fills with non-constant
content (layers are empty and features NULL in the source). -/
structure VkDeviceCreateInfo where
  queueCreateInfos : List VkDeviceQueueCreateInfo
  enabledExtensionNames : List String
deriving DecidableEq

/-- The deviceCreateInfo literal of create_device (main_x11.c lines
276-303): one queue from family 0, queue count 1, priority 1.0, and the
VK_KHR_swapchain extension enabled. -/
def deviceCreateInfo : VkDeviceCreateInfo :=
  { queueCreateInfos :=
      [{ queueFamilyIndex := 0, queueCount := 1, queuePriorities := [(1 : Rat)] }]
    enabledExtensionNames := ["VK_KHR_swapchain"] }

/-- Outcomes of the external calls create_device makes:
vkEnumeratePhysicalDevices returns `enumerateResult` and writes
`enumeratedDevices` (at most MAX_PHYSICAL_DEVICES = 100 entries) into the
stack array whose pre-existing arbitrary contents begin with
`stackGarbage`; vkCreateDevice returns `createDeviceResult`. -/
structure DeviceEnv where
  enumerateResult : VkResult
  enumeratedDevices : List VkPhysicalDevice
  stackGarbage : VkPhysicalDevice
  createDeviceResult : VkResult
deriving DecidableEq

/-- create_device (main_x11.c lines 272-327).  The enumeration result is
fatal unless it is VK_SUCCESS or VK_INCOMPLETE (line 308).  The per-device
loop only prints (verbose diagnostics) and has no other effect.  Line 323
then reads physicalDevices[0] unconditionally - the first enumerated
device if any were written, the uninitialised stack contents otherwise -
and line 324 calls vkCreateDevice with deviceCreateInfo.  The returned
pair is (the VkResult main sees, the arguments of the vkCreateDevice call
if it was reached). -/
def create_device (env : DeviceEnv) :
    VkResult × Option (VkPhysicalDevice × VkDeviceCreateInfo) :=
  if env.enumerateResult ≠ VkResult.success
      ∧ env.enumerateResult ≠ VkResult.incomplete then
    (env.enumerateResult, none)
  else
    (env.createDeviceResult,
      some (env.enumeratedDevices.headD env.stackGarbage, deviceCreateInfo))

/-- A two-dimensional extent. -/
structure VkExtent2D where
  width : Nat
  height : Nat
deriving DecidableEq

/-- Image formats (the one the program uses plus a spare). -/
inductive VkFormat where
  | r8g8b8a8Srgb
  | undefined
deriving DecidableEq

/-- Color spaces (the program only ever uses sRGB non-linear). -/
inductive VkColorSpaceKHR where
  | srgbNonlinear
deriving DecidableEq

/-- The fields of VkSwapchainCreateInfoKHR the program sets to
non-constant or claim-relevant values (main_x11.c lines 419-438).  The
remaining fields of the C struct (usage = color attachment, sharing mode =
exclusive, identity pre-transform, opaque composite alpha, no old
swapchain) are constants never touched after initialisation. -/
structure VkSwapchainCreateInfoKHR where
  minImageCount : Nat
  imageFormat : VkFormat
  imageColorSpace : VkColorSpaceKHR
  imageExtent : VkExtent2D
  imageArrayLayers : Nat
  queueFamilyIndices : List Nat
  presentMode : VkPresentModeKHR
  clipped : Bool
deriving DecidableEq

/-- The initial SwapchainCreateInfo literal of create_swapchain
(main_x11.c lines 419-438): image count 2, sRGB RGBA8 format, fixed
640x480 extent, one array layer, queue family 0, FIFO present mode. -/
def defaultSwapchainCreateInfo : VkSwapchainCreateInfoKHR :=
  { minImageCount := 2
    imageFormat := VkFormat.r8g8b8a8Srgb
    imageColorSpace := VkColorSpaceKHR.srgbNonlinear
    imageExtent := { width := 640, height := 480 }
    imageArrayLayers := 1
    queueFamilyIndices := [0]
    presentMode := VkPresentModeKHR.fifo
    clipped := true }

/-- The two capability fields create_swapchain consumes (the extent fields
are printed in verbose mode but never used: the extent stays 640x480). -/
structure VkSurfaceCapabilitiesKHR where
  minImageCount : Nat
  maxImageCount : Nat
deriving DecidableEq

/-- Outcomes of the external calls create_swapchain makes:
vkGetPhysicalDeviceSurfaceCapabilitiesKHR returns `capabilitiesResult` and
writes `capabilities`; vkGetPhysicalDeviceSurfacePresentModesKHR returns
`presentModesResult` and writes `presentModes` (at most 100 entries);
vkCreateSwapchainKHR returns `createSwapchainResult`. -/
structure SwapchainEnv where
  capabilitiesResult : VkResult
  capabilities : VkSurfaceCapabilitiesKHR
  presentModesResult : VkResult
  presentModes : List VkPresentModeKHR
  createSwapchainResult : VkResult
deriving DecidableEq

/-- create_swapchain (main_x11.c lines 410-573).  A capabilities query
result other than VK_SUCCESS is fatal (line 441).  The image count is then
clamped by negotiate_image_count.  A present-modes query result other than
VK_SUCCESS - including VK_INCOMPLETE - is fatal (line 557).  The present
mode is then chosen by select_present_mode starting from the descriptor
default (FIFO), and vkCreateSwapchainKHR is called with the finished
descriptor.  The returned pair is (the VkResult main sees, the descriptor
passed to vkCreateSwapchainKHR if the call was reached). -/
def create_swapchain (env : SwapchainEnv) :
    VkResult × Option VkSwapchainCreateInfoKHR :=
  if env.capabilitiesResult ≠ VkResult.success then
    (env.capabilitiesResult, none)
  else
    let info1 := { defaultSwapchainCreateInfo with
      minImageCount := negotiate_image_count
        defaultSwapchainCreateInfo.minImageCount
        env.capabilities.minImageCount env.capabilities.maxImageCount }
    if env.presentModesResult ≠ VkResult.success then
      (env.presentModesResult, none)
    else
      let info2 := { info1 with
        presentMode := select_present_mode env.presentModes info1.presentMode }
      (env.createSwapchainResult, some info2)

/-- The six resources main acquires and releases (main_x11.c lines
575-640).  The physical device and the queue are non-owning handles and
are neither acquired nor released. -/
inductive Resource where
  | connection
  | window
  | vkInstance
  | device
  | surface
  | swapchain
deriving DecidableEq

/-- A resource-lifecycle event of a main run. -/
inductive Event where
  | acquire (r : Resource)
  | release (r : Resource)
deriving DecidableEq

/-- The stderr diagnostics main can emit, one per failure site (the C
strings "cannot connect to X server", "cannot create game window",
"cannot load vulkan", "cannot create vulkan device", "cannot create
surface", "cannot create swapchain", spelled with the contraction in the
source). -/
inductive Diagnostic where
  | cantConnect
  | cantCreateWindow
  | cantLoadVulkan
  | cantCreateDevice
  | cantCreateSurface
  | cantCreateSwapchain
deriving DecidableEq

/-- The state of main local variables at the `out:` label: which handles
are no longer at their NULL sentinel.  main_window keeps the actual
window object so window_destroy can inspect it. -/
structure MainState where
  connection : Bool
  mainWindow : Option GameWindow
  vk : Bool
  device : Bool
  surface : Bool
  swapchain : Bool
deriving DecidableEq

/-- window_destroy (main_x11.c lines 133-139): `if (window != NULL)` the
native window is destroyed and the struct freed; on NULL it is a no-op.
Modelled as the release events the call emits. -/
def window_destroy (w : Option GameWindow) : List Event :=
  match w with
  | none => []
  | some _ => [Event.release Resource.window]

/-- The unconditional teardown block at the `out:` label (main_x11.c lines
632-639): destroy swapchain, surface, device, instance, window,
connection, in that order.  Each Vulkan destroy call on a VK_NULL_HANDLE
is a no-op (per the Vulkan contract the code relies on), window_destroy
checks for NULL itself, and xcb_disconnect on NULL is a no-op - so a
handle still at its sentinel emits no release event. -/
def teardown (s : MainState) : List Event :=
  (if s.swapchain then [Event.release Resource.swapchain] else [])
  ++ (if s.surface then [Event.release Resource.surface] else [])
  ++ (if s.device then [Event.release Resource.device] else [])
  ++ (if s.vk then [Event.release Resource.vkInstance] else [])
  ++ window_destroy s.mainWindow
  ++ (if s.connection then [Event.release Resource.connection] else [])

/-- The event loop of main (lines 627-631): `while (window_is_exists
(main_window)) window_process_events (main_window);`.  The external event
stream is modelled as a finite schedule of per-iteration queue contents;
the C loop spins forever if the schedule never closes the window, so the
model simply stops when the schedule runs out. -/
def event_loop (w : GameWindow) : List (List XcbEvent) → GameWindow
  | [] => w
  | batch :: rest =>
      if window_is_exists w then event_loop (window_process_events w batch) rest
      else w

/-- Outcomes of every external call one run of main can make. -/
structure MainEnv where
  connectOk : Bool
  x11 : X11Env
  instanceResult : VkResult
  deviceEnv : DeviceEnv
  surfaceResult : VkResult
  swapchainEnv : SwapchainEnv
  eventBatches : List (List XcbEvent)
deriving DecidableEq

/-- What one run of main produces: the process exit code, the stderr
diagnostic if any, the resource-lifecycle trace, and the window object at
teardown time. -/
structure MainOut where
  code : Nat
  diag : Option Diagnostic
  trace : List Event
  finalWindow : Option GameWindow
deriving DecidableEq

/-- main (main_x11.c lines 575-640): connect, create window, create
instance, create_device, create_surface, get the queue, create_swapchain,
run the event loop, then fall through (or goto on failure) to the shared
teardown.  Each failure test mirrors the C truthiness test on the result
(failure iff the result is not VK_SUCCESS); each branch records the
acquisitions made so far followed by the teardown of the state at the
`out:` label.  vkGetDeviceQueue acquires nothing. -/
def main_run (env : MainEnv) : MainOut :=
  if env.connectOk = false then
    { code := 1, diag := some Diagnostic.cantConnect
      trace := teardown { connection := false, mainWindow := none, vk := false,
                          device := false, surface := false, swapchain := false }
      finalWindow := none }
  else
    match window_create env.x11 "Vulkan Window" 640 480 with
    | none =>
        { code := 1, diag := some Diagnostic.cantCreateWindow
          trace := [Event.acquire Resource.connection]
            ++ teardown { connection := true, mainWindow := none, vk := false,
                          device := false, surface := false, swapchain := false }
          finalWindow := none }
    | some w =>
        if env.instanceResult ≠ VkResult.success then
          { code := 1, diag := some Diagnostic.cantLoadVulkan
            trace := [Event.acquire Resource.connection,
                      Event.acquire Resource.window]
              ++ teardown { connection := true, mainWindow := some w, vk := false,
                            device := false, surface := false, swapchain := false }
            finalWindow := some w }
        else if (create_device env.deviceEnv).1 ≠ VkResult.success then
          { code := 1, diag := some Diagnostic.cantCreateDevice
            trace := [Event.acquire Resource.connection,
                      Event.acquire Resource.window,
                      Event.acquire Resource.vkInstance]
              ++ teardown { connection := true, mainWindow := some w, vk := true,
                            device := false, surface := false, swapchain := false }
            finalWindow := some w }
        else if env.surfaceResult ≠ VkResult.success then
          { code := 1, diag := some Diagnostic.cantCreateSurface
            trace := [Event.acquire Resource.connection,
                      Event.acquire Resource.window,
                      Event.acquire Resource.vkInstance,
                      Event.acquire Resource.device]
              ++ teardown { connection := true, mainWindow := some w, vk := true,
                            device := true, surface := false, swapchain := false }
            finalWindow := some w }
        else if (create_swapchain env.swapchainEnv).1 ≠ VkResult.success then
          { code := 1, diag := some Diagnostic.cantCreateSwapchain
            trace := [Event.acquire Resource.connection,
                      Event.acquire Resource.window,
                      Event.acquire Resource.vkInstance,
                      Event.acquire Resource.device,
                      Event.acquire Resource.surface]
              ++ teardown { connection := true, mainWindow := some w, vk := true,
                            device := true, surface := true, swapchain := false }
            finalWindow := some w }
        else
          let finalW := event_loop w env.eventBatches
          { code := 0, diag := none
            trace := [Event.acquire Resource.connection,
                      Event.acquire Resource.window,
                      Event.acquire Resource.vkInstance,
                      Event.acquire Resource.device,
                      Event.acquire Resource.surface,
                      Event.acquire Resource.swapchain]
              ++ teardown { connection := true, mainWindow := some finalW,
                            vk := true, device := true, surface := true,
                            swapchain := true }
            finalWindow := some finalW }

/-- The acquisitions of a trace, in order. -/
def acquiresOf (tr : List Event) : List Resource :=
  tr.filterMap fun e => match e with
    | Event.acquire r => some r
    | Event.release _ => none

/-- The releases of a trace, in order. -/
def releasesOf (tr : List Event) : List Resource :=
  tr.filterMap fun e => match e with
    | Event.acquire _ => none
    | Event.release r => some r

/-- A concrete environment in which the present-mode list holds IMMEDIATE
before MAILBOX. -/
def swEnvMailboxLate : SwapchainEnv :=
  { capabilitiesResult := VkResult.success
    capabilities := { minImageCount := 1, maxImageCount := 3 }
    presentModesResult := VkResult.success
    presentModes := [VkPresentModeKHR.immediate, VkPresentModeKHR.mailbox]
    createSwapchainResult := VkResult.success }

/-- A concrete environment in which the X server connection succeeds but
the window allocation fails. -/
def menvWindowFail : MainEnv :=
  { connectOk := true
    x11 := { mallocOk := false, createWindowOk := true, deleteAtom := 0,
             newWindowId := 0 }
    instanceResult := VkResult.success
    deviceEnv := { enumerateResult := VkResult.success, enumeratedDevices := [⟨1⟩],
                   stackGarbage := ⟨0⟩, createDeviceResult := VkResult.success }
    surfaceResult := VkResult.success
    swapchainEnv := { capabilitiesResult := VkResult.success
                      capabilities := { minImageCount := 1, maxImageCount := 3 }
                      presentModesResult := VkResult.success
                      presentModes := []
                      createSwapchainResult := VkResult.success }
    eventBatches := [] }

/-- Helper characterisation of the present-mode scan: MAILBOX wins whenever
it occurs, otherwise IMMEDIATE wins whenever it occurs, otherwise the
incoming mode is kept. -/
theorem select_present_mode_characterization (modes : List VkPresentModeKHR)
    (mode : VkPresentModeKHR) :
    select_present_mode modes mode =
      if VkPresentModeKHR.mailbox ∈ modes then VkPresentModeKHR.mailbox
      else if VkPresentModeKHR.immediate ∈ modes then VkPresentModeKHR.immediate
      else mode := by
  induction modes generalizing mode with
  | nil => simp [select_present_mode]
  | cons m rest ih =>
    by_cases hm : m = VkPresentModeKHR.mailbox
    · subst hm
      simp [select_present_mode]
    · by_cases hi : m = VkPresentModeKHR.immediate
      · subst hi
        by_cases hmb : VkPresentModeKHR.mailbox ∈ rest
        · simp [select_present_mode, ih, hmb, hm]
        · simp [select_present_mode, ih, hmb, hm, Ne.symm hm]
      · by_cases hmb : VkPresentModeKHR.mailbox ∈ rest <;>
          by_cases him : VkPresentModeKHR.immediate ∈ rest <;>
          simp [select_present_mode, ih, hm, hi, hmb, him,
            Ne.symm hm, Ne.symm hi]

/-- Helper: no single event changes the registered close-protocol atom. -/
theorem window_handle_event_token (w : GameWindow) (e : XcbEvent) :
    (window_handle_event w e).wm_delete_window = w.wm_delete_window := by
  cases e with
  | clientMessage d =>
      simp only [window_handle_event]
      split <;> rfl
  | configureNotify a b =>
      simp only [window_handle_event]
      split <;> rfl
  | other => rfl

/-- Helper: no single event resets the is_closed flag. -/
theorem window_handle_event_closed (w : GameWindow) (e : XcbEvent)
    (h : w.is_closed = true) : (window_handle_event w e).is_closed = true := by
  cases e with
  | clientMessage d =>
      simp only [window_handle_event]
      split <;> simp [h]
  | configureNotify a b =>
      simp only [window_handle_event]
      split <;> simp [h]
  | other => exact h

/-- Helper: pumping events does not change the close-protocol atom. -/
theorem window_process_events_token (w : GameWindow) (evs : List XcbEvent) :
    (window_process_events w evs).wm_delete_window = w.wm_delete_window := by
  induction evs generalizing w with
  | nil => rfl
  | cons e rest ih =>
      show (window_process_events (window_handle_event w e) rest).wm_delete_window
        = w.wm_delete_window
      rw [ih, window_handle_event_token]

/-- Helper: pumping events does not reset the is_closed flag. -/
theorem window_process_events_closed (w : GameWindow) (evs : List XcbEvent)
    (h : w.is_closed = true) :
    (window_process_events w evs).is_closed = true := by
  induction evs generalizing w with
  | nil => exact h
  | cons e rest ih =>
      exact ih (window_handle_event w e) (window_handle_event_closed w e h)

/-- C1: the claim says that when maxImageCount is the zero sentinel only
the lower-bound clamp is applied, so with capabilities (min 1, max 0) the
descriptor count should stay 2.  The code has no zero-sentinel case: the
else-if upper clamp fires (2 > 0) and the descriptor passed to
vkCreateSwapchainKHR carries minImageCount 0, an invalid request.  This
theorem evaluates the code at that failing input. -/
theorem negotiate_image_count_zero_sentinel :
    negotiate_image_count 2 1 0 = 0
    ∧ ((create_swapchain
        { capabilitiesResult := VkResult.success
          capabilities := { minImageCount := 1, maxImageCount := 0 }
          presentModesResult := VkResult.success
          presentModes := []
          createSwapchainResult := VkResult.success }).2).map
        VkSwapchainCreateInfoKHR.minImageCount = some 0 :=
  ⟨rfl, rfl⟩

/-- C2: when both queries succeed, the present mode in the descriptor
passed to vkCreateSwapchainKHR is MAILBOX whenever MAILBOX occurs anywhere
in the supported list (regardless of position, even after an earlier
IMMEDIATE), otherwise IMMEDIATE whenever IMMEDIATE occurs, otherwise the
FIFO default. -/
theorem present_mode_selection (env : SwapchainEnv)
    (hc : env.capabilitiesResult = VkResult.success)
    (hp : env.presentModesResult = VkResult.success) :
    ((create_swapchain env).2).map VkSwapchainCreateInfoKHR.presentMode =
      some (if VkPresentModeKHR.mailbox ∈ env.presentModes then
          VkPresentModeKHR.mailbox
        else if VkPresentModeKHR.immediate ∈ env.presentModes then
          VkPresentModeKHR.immediate
        else VkPresentModeKHR.fifo) := by
  simp [create_swapchain, hc, hp, select_present_mode_characterization,
    defaultSwapchainCreateInfo]

theorem present_mode_selection_witness :
    ((create_swapchain swEnvMailboxLate).2).map
        VkSwapchainCreateInfoKHR.presentMode =
      some (if VkPresentModeKHR.mailbox ∈ swEnvMailboxLate.presentModes then
          VkPresentModeKHR.mailbox
        else if VkPresentModeKHR.immediate ∈ swEnvMailboxLate.presentModes then
          VkPresentModeKHR.immediate
        else VkPresentModeKHR.fifo) :=
  present_mode_selection swEnvMailboxLate rfl rfl

/-- C5 counterexample: the claim says present-mode enumeration in
create_swapchain tolerates the incomplete result and continues with the
truncated list.  In fact create_swapchain treats any non-success result of
the present-mode query as fatal: at this concrete input it returns the
incomplete code as a failure and never reaches vkCreateSwapchainKHR. -/
theorem create_swapchain_incomplete_counterexample :
    create_swapchain
      { capabilitiesResult := VkResult.success
        capabilities := { minImageCount := 1, maxImageCount := 3 }
        presentModesResult := VkResult.incomplete
        presentModes := [VkPresentModeKHR.mailbox]
        createSwapchainResult := VkResult.success }
      = (VkResult.incomplete, none) := by decide

/-- C5 (amended): the incomplete (truncation) result is tolerated as a
non-error only by the physical-device enumeration in create_device, which
continues with the truncated list; the present-mode enumeration in
create_swapchain treats incomplete like any other non-success result and
fails. -/
theorem incomplete_handling (denv : DeviceEnv) (senv : SwapchainEnv)
    (hd : denv.enumerateResult = VkResult.incomplete)
    (hc : senv.capabilitiesResult = VkResult.success)
    (hp : senv.presentModesResult = VkResult.incomplete) :
    ((create_device denv).2).isSome = true
    ∧ create_swapchain senv = (VkResult.incomplete, none) := by
  constructor
  · simp [create_device, hd]
  · simp [create_swapchain, hc, hp]

theorem incomplete_handling_witness :
    ((create_device
      { enumerateResult := VkResult.incomplete
        enumeratedDevices := [⟨4⟩]
        stackGarbage := ⟨9⟩
        createDeviceResult := VkResult.success }).2).isSome = true
    ∧ create_swapchain
      { capabilitiesResult := VkResult.success
        capabilities := { minImageCount := 2, maxImageCount := 4 }
        presentModesResult := VkResult.incomplete
        presentModes := []
        createSwapchainResult := VkResult.success }
      = (VkResult.incomplete, none) :=
  incomplete_handling _ _ rfl rfl rfl

/-- C7: whenever enumeration yields a non-empty list (with result
VK_SUCCESS or the tolerated VK_INCOMPLETE), create_device selects the
first enumerated physical device with no suitability check, and calls
vkCreateDevice with exactly one queue from queue-family index 0, queue
count 1, priority 1.0, and the swapchain extension enabled; the result of
that call is returned. -/
theorem create_device_selects_first (env : DeviceEnv) (d : VkPhysicalDevice)
    (rest : List VkPhysicalDevice)
    (henum : env.enumerateResult = VkResult.success
      ∨ env.enumerateResult = VkResult.incomplete)
    (hdevs : env.enumeratedDevices = d :: rest) :
    create_device env = (env.createDeviceResult, some (d, deviceCreateInfo))
    ∧ deviceCreateInfo.queueCreateInfos
        = [{ queueFamilyIndex := 0, queueCount := 1,
             queuePriorities := [(1 : Rat)] }]
    ∧ deviceCreateInfo.enabledExtensionNames = ["VK_KHR_swapchain"] := by
  refine ⟨?_, rfl, rfl⟩
  have hguard : ¬(env.enumerateResult ≠ VkResult.success
      ∧ env.enumerateResult ≠ VkResult.incomplete) := by
    rcases henum with h | h <;> simp [h]
  simp [create_device, hguard, hdevs]

theorem create_device_selects_first_witness :
    create_device
      { enumerateResult := VkResult.success
        enumeratedDevices := [⟨5⟩, ⟨6⟩]
        stackGarbage := ⟨9⟩
        createDeviceResult := VkResult.success }
      = (VkResult.success, some (⟨5⟩, deviceCreateInfo))
    ∧ deviceCreateInfo.queueCreateInfos
        = [{ queueFamilyIndex := 0, queueCount := 1,
             queuePriorities := [(1 : Rat)] }]
    ∧ deviceCreateInfo.enabledExtensionNames = ["VK_KHR_swapchain"] :=
  create_device_selects_first _ ⟨5⟩ [⟨6⟩] (Or.inl rfl) rfl

/-- C10: when enumeration succeeds with zero devices, create_device has no
empty-enumeration error branch: it skips the loop, reads the first slot of
the never-written stack array (the arbitrary pre-existing contents) as the
selected physical device, and proceeds to vkCreateDevice. -/
theorem create_device_empty_enumeration (env : DeviceEnv)
    (hres : env.enumerateResult = VkResult.success)
    (hempty : env.enumeratedDevices = []) :
    create_device env
      = (env.createDeviceResult, some (env.stackGarbage, deviceCreateInfo)) := by
  simp [create_device, hres, hempty]

theorem create_device_empty_enumeration_witness :
    create_device
      { enumerateResult := VkResult.success
        enumeratedDevices := []
        stackGarbage := ⟨7⟩
        createDeviceResult := VkResult.errorInitializationFailed }
      = (VkResult.errorInitializationFailed, some (⟨7⟩, deviceCreateInfo)) :=
  create_device_empty_enumeration _ rfl rfl

/-- C3: on every exit path of main - success after the event loop or
failure at any bootstrap step - the teardown releases exactly the
resources acquired before that point, in exactly the reverse of
acquisition order: the release list of the run trace equals the reverse of
its acquisition list. -/
theorem main_teardown_reverse_order (env : MainEnv) :
    releasesOf (main_run env).trace = (acquiresOf (main_run env).trace).reverse := by
  unfold main_run
  split
  · rfl
  · split
    · rfl
    · split
      · rfl
      · split
        · rfl
        · split
          · rfl
          · split
            · rfl
            · rfl

/-- C4: once the event pump observes a client message whose first data
word matches the registered close-protocol atom, is_closed is set and
never reset, so window_is_exists returns false no matter how many further
events are pumped afterwards. -/
theorem window_close_semantics (w : GameWindow) (evs1 evs2 : List XcbEvent) :
    window_is_exists (window_process_events (window_process_events w
      (evs1 ++ [XcbEvent.clientMessage w.wm_delete_window])) evs2) = false := by
  have h1 : window_process_events w
        (evs1 ++ [XcbEvent.clientMessage w.wm_delete_window])
      = window_handle_event (window_process_events w evs1)
          (XcbEvent.clientMessage w.wm_delete_window) := by
    simp [window_process_events, List.foldl_append]
  have h2 : (window_handle_event (window_process_events w evs1)
      (XcbEvent.clientMessage w.wm_delete_window)).is_closed = true := by
    have ht := window_process_events_token w evs1
    simp [window_handle_event, ht]
  rw [h1]
  have h3 := window_process_events_closed _ evs2 h2
  simp [window_is_exists, h3]

/-- C8: a configure (structural) notification whose reported width and
height both equal the stored values leaves the window state unchanged; one
where either differs sets the stored width and height to the reported
values and modifies no other field. -/
theorem configure_resize (w : GameWindow) (ew eh : Nat) :
    ((ew = w.width ∧ eh = w.height) →
        window_handle_event w (XcbEvent.configureNotify ew eh) = w)
    ∧ ((ew ≠ w.width ∨ eh ≠ w.height) →
        (window_handle_event w (XcbEvent.configureNotify ew eh)).width = ew
        ∧ (window_handle_event w (XcbEvent.configureNotify ew eh)).height = eh
        ∧ (window_handle_event w (XcbEvent.configureNotify ew eh)).is_closed
            = w.is_closed
        ∧ (window_handle_event w (XcbEvent.configureNotify ew eh)).wm_delete_window
            = w.wm_delete_window
        ∧ (window_handle_event w (XcbEvent.configureNotify ew eh)).window_id
            = w.window_id) := by
  constructor
  · rintro ⟨h1, h2⟩
    simp [window_handle_event, h1, h2]
  · intro h
    simp [window_handle_event, h]

theorem configure_resize_witness :
    window_handle_event (GameWindow.mk 1 2 false 0 0) (XcbEvent.configureNotify 0 0)
      = GameWindow.mk 1 2 false 0 0
    ∧ (window_handle_event (GameWindow.mk 1 2 false 0 0)
        (XcbEvent.configureNotify 640 480)).width = 640 := by
  constructor
  · exact (configure_resize (GameWindow.mk 1 2 false 0 0) 0 0).1 ⟨rfl, rfl⟩
  · exact ((configure_resize (GameWindow.mk 1 2 false 0 0) 640 480).2
      (Or.inl (by decide))).1

/-- C9: every window returned by a successful window_create has stored
width and height initialised to 0 rather than the requested size, so the
first configure notification that reports a non-zero actual size is
treated as a size change by the event pump and updates both fields. -/
theorem window_create_initial_size (env : X11Env) (caption : String)
    (reqW reqH : Nat) (w : GameWindow)
    (h : window_create env caption reqW reqH = some w) :
    w.width = 0 ∧ w.height = 0
    ∧ ((reqW ≠ 0 ∨ reqH ≠ 0) →
        (window_process_events w [XcbEvent.configureNotify reqW reqH]).width = reqW
        ∧ (window_process_events w [XcbEvent.configureNotify reqW reqH]).height
            = reqH) := by
  simp only [window_create] at h
  split at h
  · injection h with h
    subst h
    refine ⟨rfl, rfl, ?_⟩
    intro hne
    simp [window_process_events, window_handle_event, hne]
  · exact absurd h (by simp)

theorem window_create_initial_size_witness :
    (window_process_events (GameWindow.mk 1 2 false 0 0)
      [XcbEvent.configureNotify 640 480]).width = 640 := by
  have h := window_create_initial_size
    { mallocOk := true, createWindowOk := true, deleteAtom := 1, newWindowId := 2 }
    "Vulkan Window" 640 480 (GameWindow.mk 1 2 false 0 0) rfl
  exact (h.2.2 (Or.inl (by decide))).1

/-- C6 counterexample: the claim says window_create returns NULL whenever
the protocol-level window creation fails.  The creation request is issued
asynchronously and its outcome is never read back: with malloc succeeding
and the protocol-level creation failing, window_create still returns a
window object. -/
theorem window_create_ignores_protocol_failure :
    window_create
      { mallocOk := true, createWindowOk := false, deleteAtom := 3, newWindowId := 8 }
      "Vulkan Window" 640 480 ≠ none := by
  simp [window_create]

/-- C6 (amended): window_create returns the NULL sentinel exactly when the
allocation of the window object fails; protocol-level creation failures
are issued asynchronously and never observed, so they cannot cause a NULL
return.  When window_create does return NULL, the orchestrator reports the
cannot-create-game-window diagnostic and exits with failure status. -/
theorem window_create_failure_reporting (env : X11Env) (caption : String)
    (reqW reqH : Nat) (menv : MainEnv)
    (hc : menv.connectOk = true) (hm : menv.x11.mallocOk = false) :
    (window_create env caption reqW reqH = none ↔ env.mallocOk = false)
    ∧ (main_run menv).code = 1
    ∧ (main_run menv).diag = some Diagnostic.cantCreateWindow := by
  refine ⟨?_, ?_, ?_⟩
  · unfold window_create
    cases h : env.mallocOk <;> simp [h]
  · unfold main_run
    simp [hc, window_create, hm]
  · unfold main_run
    simp [hc, window_create, hm]

theorem window_create_failure_reporting_witness :
    (window_create menvWindowFail.x11 "Vulkan Window" 640 480 = none
      ↔ menvWindowFail.x11.mallocOk = false)
    ∧ (main_run menvWindowFail).code = 1
    ∧ (main_run menvWindowFail).diag = some Diagnostic.cantCreateWindow :=
  window_create_failure_reporting menvWindowFail.x11 "Vulkan Window" 640 480
    menvWindowFail rfl rfl





